import Mathlib

/-!
Verification of the Mumble native plugin host (plugin lifecycle manager,
memory curator, ABI resolver, positional data arbiter) against its
natural-language specification.  The definitions below are shallow
embeddings of the C++ sources under src/: pure logic becomes Lean
functions, the registry and descriptors become explicit state records,
function pointers become presence flags paired with the behaviour of the
backing shared library, and void* pointers / deleter functions become
naturals identifying them.
-/

namespace MumbleHost

/-- Error codes from `enum ErrorCode` in plugins/PluginComponents.h
(EC_GENERIC_ERROR = -1, EC_OK = 0, then consecutively increasing). -/
inductive ErrorCode where
  | EC_GENERIC_ERROR
  | EC_OK
  | EC_POINTER_NOT_FOUND
  | EC_NO_ACTIVE_CONNECTION
  | EC_USER_NOT_FOUND
  | EC_CHANNEL_NOT_FOUND
  | EC_CONNECTION_NOT_FOUND
  | EC_UNKNOWN_TRANSMISSION_MODE
  | EC_AUDIO_NOT_AVAILABLE
  | EC_INVALID_SAMPLE
  | EC_INVALID_PLUGIN_ID
  deriving DecidableEq, Repr

/-- PDEC_OK from `enum PositionalDataErrorCode`; the positional functions
return a raw uint8_t, so the codes are embedded as naturals. -/
def PDEC_OK : Nat := 0

/-- PDEC_ERROR_TEMP from `enum PositionalDataErrorCode`. -/
def PDEC_ERROR_TEMP : Nat := 1

/-- PDEC_ERROR_PERM from `enum PositionalDataErrorCode`. -/
def PDEC_ERROR_PERM : Nat := 2

/-- A void* pointer value crossing the host/plugin boundary. -/
abbrev Ptr := Nat

/-- Identifies one concrete deleter function (std:function held by the
curator, e.g. defaultDeleter). -/
abbrev Deleter := Nat

/-- The MumbleAPICurator of API.cpp: a QHash from pointers to their
deleter functions (the mutex only serializes access and has no effect on
the sequential semantics).  QHash keys are unique, so the hash is an
association list with distinct keys. -/
structure MumbleAPICurator where
  deleteFunctions : List (Ptr × Deleter)
  deriving DecidableEq, Repr

/-- Result of one freeMemory_v_1_0_x call: the curator afterwards, the
deleter invocations the call performed (deleter, argument), and the
returned error code. -/
structure FreeMemoryResult where
  curator : MumbleAPICurator
  invocations : List (Deleter × Ptr)
  ret : ErrorCode
  deriving DecidableEq, Repr

/-- Lookup of a pointer's deleter, as `curator.deleteFunctions.contains(ptr)`
followed by `value(ptr)` would observe it. -/
def MumbleAPICurator.lookup (c : MumbleAPICurator) (p : Ptr) : Option Deleter :=
  (c.deleteFunctions.find? (fun e => e.1 == p)).map (fun e => e.2)

/-- QHash::contains on the curator's map. -/
def MumbleAPICurator.contains (c : MumbleAPICurator) (p : Ptr) : Bool :=
  c.deleteFunctions.any (fun e => e.1 == p)

/-- freeMemory_v_1_0_x from API.cpp: if the pointer is tracked, `take` the
entry out of the map (QHash::take removes the unique entry with that key,
embedded as filtering the key out), invoke the deleter on the pointer and
return STATUS_OK (= EC_OK); otherwise return EC_POINTER_NOT_FOUND without
invoking anything.  The caller ID is deliberately not verified in the
source and does not appear here. -/
def freeMemory_v_1_0_x (c : MumbleAPICurator) (p : Ptr) : FreeMemoryResult :=
  match c.deleteFunctions.find? (fun e => e.1 == p) with
  | some entry =>
      ⟨⟨c.deleteFunctions.filter (fun e => !(e.1 == p))⟩, [(entry.2, p)], ErrorCode.EC_OK⟩
  | none => ⟨c, [], ErrorCode.EC_POINTER_NOT_FOUND⟩

/-- The Version struct of plugins/PluginComponents.h (int32_t fields,
embedded as unbounded integers; none of the comparisons can overflow). -/
structure Version where
  major : Int
  minor : Int
  patch : Int
  deriving DecidableEq, Repr

/-- Version::operator< : major <=, minor <= and patch strictly <. -/
def Version.lt (a b : Version) : Bool :=
  decide (a.major ≤ b.major) && decide (a.minor ≤ b.minor) && decide (a.patch < b.patch)

/-- Version::operator> : major >=, minor >= and patch strictly >. -/
def Version.gt (a b : Version) : Bool :=
  decide (a.major ≥ b.major) && decide (a.minor ≥ b.minor) && decide (a.patch > b.patch)

/-- Version::operator>= : all three components >=. -/
def Version.ge (a b : Version) : Bool :=
  decide (a.major ≥ b.major) && decide (a.minor ≥ b.minor) && decide (a.patch ≥ b.patch)

/-- Version::operator<= : all three components <=. -/
def Version.le (a b : Version) : Bool :=
  decide (a.major ≤ b.major) && decide (a.minor ≤ b.minor) && decide (a.patch ≤ b.patch)

/-- Version::operator== : component-wise equality. -/
def Version.eq (a b : Version) : Bool :=
  decide (a.major = b.major) && decide (a.minor = b.minor) && decide (a.patch = b.patch)

/-- A 3-vector of the PositionalData module.  The float components are
embedded as rationals: every operation the host performs on them here is
an exact assignment or an exact equality test (Vector3D::operator== uses
`equals(other, 0.0f)`, i.e. exact comparison), so no rounding occurs. -/
abbrev Vec3 := ℚ × ℚ × ℚ

/-- Vector3D::toZero / the zero vector (0,0,0). -/
def Vector3D.zero : Vec3 := (0, 0, 0)

/-- std:numeric_limits float min, the smallest positive normalized
IEEE-754 single-precision value 2^-126, as an exact rational. -/
def floatMin : ℚ := 1 / 2 ^ 126

/-- FLT_EPSILON, the machine epsilon of single precision, 2^-23. -/
def floatEpsilon : ℚ := 1 / 2 ^ 23

/-- Componentwise closeness to the origin within one float epsilon. -/
def withinEpsilonOfZero (v : Vec3) : Prop :=
  |v.1| ≤ floatEpsilon ∧ |v.2.1| ≤ floatEpsilon ∧ |v.2.2| ≤ floatEpsilon

/-- The PositionalData snapshot (PositionalData.h): six vectors plus the
context and identity strings.  Its QReadWriteLock only serializes access. -/
structure PositionalData where
  playerPos : Vec3
  playerDir : Vec3
  playerAxis : Vec3
  cameraPos : Vec3
  cameraDir : Vec3
  cameraAxis : Vec3
  context : String
  identity : String
  deriving DecidableEq, Repr

/-- PositionalData::reset from PositionalData.cpp: zero all six vectors
and clear both strings. -/
def PositionalData.reset (_d : PositionalData) : PositionalData :=
  ⟨Vector3D.zero, Vector3D.zero, Vector3D.zero, Vector3D.zero, Vector3D.zero, Vector3D.zero, "", ""⟩

/-- The behaviour-relevant content of a plugin's backing shared library:
which symbols it exports (QLibrary::resolve succeeds exactly on these)
and what its functions return when the host calls them.  Functions whose
return values the modelled host code never inspects are omitted. -/
structure Library where
  exported : List String
  initResult : ErrorCode
  initPositionalDataResult : Nat
  apiVersion : Version
  name : String
  fetchRet : Bool
  fetchPlayerPos : Vec3
  fetchPlayerDir : Vec3
  fetchPlayerAxis : Vec3
  fetchCameraPos : Vec3
  fetchCameraDir : Vec3
  fetchCameraAxis : Vec3
  fetchContext : String
  fetchIdentity : String
  deriving DecidableEq, Repr

/-- QLibrary::resolve: whether the named symbol exists in the library. -/
def Library.resolve (lib : Library) (symbol : String) : Bool :=
  lib.exported.contains symbol

/-- The PluginAPIFunctions struct of Plugin.h: one field per resolvable
entry point; `true` embeds a non-null function pointer.  The behaviour of
a non-null pointer lives in the Library record. -/
structure PluginAPIFunctions where
  init : Bool
  shutdown : Bool
  getName : Bool
  getAPIVersion : Bool
  registerAPIFunctions : Bool
  setMumbleInfo : Bool
  getVersion : Bool
  getAuthor : Bool
  getDescription : Bool
  registerPluginID : Bool
  getFeatures : Bool
  deactivateFeatures : Bool
  initPositionalData : Bool
  fetchPositionalData : Bool
  shutdownPositionalData : Bool
  onServerConnected : Bool
  onServerDisconnected : Bool
  onChannelEntered : Bool
  onChannelExited : Bool
  onUserTalkingStateChanged : Bool
  onReceiveData : Bool
  onAudioInput : Bool
  onAudioSourceFetched : Bool
  onAudioOutputAboutToPlay : Bool
  onServerSynchronized : Bool
  onUserAdded : Bool
  onUserRemoved : Bool
  onChannelAdded : Bool
  onChannelRemoved : Bool
  onChannelRenamed : Bool
  onKeyEvent : Bool
  hasUpdate : Bool
  getUpdateDownloadURL : Bool
  deriving DecidableEq, Repr

/-- The all-null function table (m_apiFnc after default construction of
the Plugin object, before resolveFunctionPointers runs). -/
def PluginAPIFunctions.null : PluginAPIFunctions :=
  ⟨false, false, false, false, false, false, false, false, false, false, false,
   false, false, false, false, false, false, false, false, false, false, false,
   false, false, false, false, false, false, false, false, false, false, false⟩

/-- Result of Plugin::resolveFunctionPointers: the function table written
into m_apiFnc and the resulting m_pluginIsValid flag. -/
structure ResolveResult where
  apiFnc : PluginAPIFunctions
  pluginIsValid : Bool
  deriving DecidableEq, Repr

/-- Plugin::resolveFunctionPointers from Plugin.cpp: starting from the
null table, resolve the five mandatory symbols; if any is missing the
plugin becomes invalid and resolution stops (optional entries stay null).
Otherwise resolve every optional symbol, and finally apply the
all-or-nothing rule for the three positional entry points: if a
non-empty strict subset of them resolved, all three are forced back to
null.  `pluginIsValid` is the m_pluginIsValid flag on entry (the body
runs only when it is true). -/
def Plugin.resolveFunctionPointers (pluginIsValid : Bool) (lib : Library) : ResolveResult :=
  if pluginIsValid then
    let mand : PluginAPIFunctions :=
      { PluginAPIFunctions.null with
        init := lib.resolve "mumble_init"
        shutdown := lib.resolve "mumble_shutdown"
        getName := lib.resolve "mumble_getName"
        getAPIVersion := lib.resolve "mumble_getAPIVersion"
        registerAPIFunctions := lib.resolve "mumble_registerAPIFunctions" }
    if !(mand.init && mand.shutdown && mand.getName && mand.getAPIVersion
         && mand.registerAPIFunctions) then
      ⟨mand, false⟩
    else
      let full : PluginAPIFunctions :=
        { mand with
          setMumbleInfo := lib.resolve "mumble_setMumbleInfo"
          getVersion := lib.resolve "mumble_getVersion"
          getAuthor := lib.resolve "mumble_getAuthor"
          getDescription := lib.resolve "mumble_getDescription"
          registerPluginID := lib.resolve "mumble_registerPluginID"
          getFeatures := lib.resolve "mumble_getFeatures"
          deactivateFeatures := lib.resolve "mumble_deactivateFeatures"
          initPositionalData := lib.resolve "mumble_initPositionalData"
          fetchPositionalData := lib.resolve "mumble_fetchPositionalData"
          shutdownPositionalData := lib.resolve "mumble_shutdownPositionalData"
          onServerConnected := lib.resolve "mumble_onServerConnected"
          onServerDisconnected := lib.resolve "mumble_onServerDisconnected"
          onChannelEntered := lib.resolve "mumble_onChannelEntered"
          onChannelExited := lib.resolve "mumble_onChannelExited"
          onUserTalkingStateChanged := lib.resolve "mumble_onUserTalkingStateChanged"
          onReceiveData := lib.resolve "mumble_onReceiveData"
          onAudioInput := lib.resolve "mumble_onAudioInput"
          onAudioSourceFetched := lib.resolve "mumble_onAudioSourceFetched"
          onAudioOutputAboutToPlay := lib.resolve "mumble_onAudioOutputAboutToPlay"
          onServerSynchronized := lib.resolve "mumble_onServerSynchronized"
          onUserAdded := lib.resolve "mumble_onUserAdded"
          onUserRemoved := lib.resolve "mumble_onUserRemoved"
          onChannelAdded := lib.resolve "mumble_onChannelAdded"
          onChannelRemoved := lib.resolve "mumble_onChannelRemoved"
          onChannelRenamed := lib.resolve "mumble_onChannelRenamed"
          onKeyEvent := lib.resolve "mumble_onKeyEvent"
          hasUpdate := lib.resolve "mumble_hasUpdate"
          getUpdateDownloadURL := lib.resolve "mumble_getUpdateDownloadURL" }
      if !(full.initPositionalData && full.fetchPositionalData && full.shutdownPositionalData)
         && (full.initPositionalData || full.fetchPositionalData || full.shutdownPositionalData) then
        ⟨{ full with
           initPositionalData := false
           fetchPositionalData := false
           shutdownPositionalData := false }, true⟩
      else
        ⟨full, true⟩
  else
    ⟨PluginAPIFunctions.null, pluginIsValid⟩

/-- One plugin descriptor (the mutable state of a Plugin object together
with the behaviour of its backing library). -/
structure PluginState where
  pluginID : Nat
  lib : Library
  apiFnc : PluginAPIFunctions
  pluginIsValid : Bool
  pluginIsLoaded : Bool
  positionalDataIsEnabled : Bool
  positionalDataIsActive : Bool
  deriving DecidableEq, Repr

/-- Observable calls the host makes into plugin code, for ordering and
exactly-once statements. -/
inductive PluginEvent where
  | shutdownPositionalDataCall (id : Nat)
  | shutdownCall (id : Nat)
  deriving DecidableEq, Repr

/-- Plugin::initPositionalData from Plugin.cpp: if the positional init
function pointer is non-null, m_positionalDataIsActive is set to true and
the plugin's return code is passed through unchanged; otherwise
PDEC_ERROR_PERM is returned.  Note that the source sets the active flag
before the plugin reports whether initialization succeeded. -/
def Plugin.initPositionalData (p : PluginState) : PluginState × Nat :=
  if p.apiFnc.initPositionalData then
    ({ p with positionalDataIsActive := true }, p.lib.initPositionalDataResult)
  else
    (p, PDEC_ERROR_PERM)

/-- Plugin::shutdownPositionalData from Plugin.cpp: if the pointer is
non-null, clear the active flag and call into the plugin. -/
def Plugin.shutdownPositionalData (p : PluginState) : PluginState × List PluginEvent :=
  if p.apiFnc.shutdownPositionalData then
    ({ p with positionalDataIsActive := false },
     [PluginEvent.shutdownPositionalDataCall p.pluginID])
  else
    (p, [])

/-- Plugin::shutdown from Plugin.cpp: no-op when not loaded; otherwise
shut positional data down first when it is active, then call the
plugin's shutdown entry point and clear the loaded flag. -/
def Plugin.shutdown (p : PluginState) : PluginState × List PluginEvent :=
  if !p.pluginIsLoaded then
    (p, [])
  else
    let s1 := if p.positionalDataIsActive then Plugin.shutdownPositionalData p else (p, [])
    let ev2 := if s1.1.apiFnc.shutdown then [PluginEvent.shutdownCall s1.1.pluginID] else []
    ({ s1.1 with pluginIsLoaded := false }, s1.2 ++ ev2)

/-- Plugin::init from Plugin.cpp: OK when already loaded; otherwise mark
loaded, push version info (setMumbleInfo, stateless here), call the
plugin's init and on a non-OK status clear the loaded flag again and
propagate it; on OK push the plugin ID (registerPluginID, stateless). -/
def Plugin.init (p : PluginState) : PluginState × ErrorCode :=
  if p.pluginIsLoaded then
    (p, ErrorCode.EC_OK)
  else
    let p1 := { p with pluginIsLoaded := true }
    let ret := if p1.apiFnc.init then p1.lib.initResult else ErrorCode.EC_OK
    if ret ≠ ErrorCode.EC_OK then
      ({ p1 with pluginIsLoaded := false }, ret)
    else
      (p1, ret)

/-- Plugin::getAPIVersion from Plugin.cpp: the plugin's declared API
version, or (-1,-1,-1) when the getter did not resolve. -/
def Plugin.getAPIVersion (p : PluginState) : Version :=
  if p.apiFnc.getAPIVersion then p.lib.apiVersion else ⟨-1, -1, -1⟩

/-- Plugin::getName from Plugin.cpp. -/
def Plugin.getName (p : PluginState) : String :=
  if p.apiFnc.getName then p.lib.name else "Unknown plugin"

/-- Outcome of Plugin::fetchPositionalData: the values written through
the six out-parameters, the two strings and the returned status. -/
structure FetchOutcome where
  playerPos : Vec3
  playerDir : Vec3
  playerAxis : Vec3
  cameraPos : Vec3
  cameraDir : Vec3
  cameraAxis : Vec3
  context : String
  identity : String
  retStatus : Bool
  deriving DecidableEq, Repr

/-- Plugin::fetchPositionalData from Plugin.cpp: delegate to the plugin
when the pointer is non-null, otherwise zero every out-parameter and
return false. -/
def Plugin.fetchPositionalData (p : PluginState) : FetchOutcome :=
  if p.apiFnc.fetchPositionalData then
    ⟨p.lib.fetchPlayerPos, p.lib.fetchPlayerDir, p.lib.fetchPlayerAxis,
     p.lib.fetchCameraPos, p.lib.fetchCameraDir, p.lib.fetchCameraAxis,
     p.lib.fetchContext, p.lib.fetchIdentity, p.lib.fetchRet⟩
  else
    ⟨Vector3D.zero, Vector3D.zero, Vector3D.zero, Vector3D.zero, Vector3D.zero,
     Vector3D.zero, "", "", false⟩

/-- The MumbleAPI struct of plugins/PluginComponents.h: a table of host
function pointers.  Each field holds the name of the host function bound
into that slot, so distinct tables compare unequal exactly when they bind
different functions. -/
structure MumbleAPI where
  freeMemory : String
  getActiveServerConnection : String
  getLocalUserID : String
  getUserName : String
  getChannelName : String
  getAllUsers : String
  getAllChannels : String
  getChannelOfUser : String
  getUsersInChannel : String
  getLocalUserTransmissionMode : String
  requestLocalUserTransmissionMode : String
  requestUserMove : String
  requestMicrophoneActivationOvewrite : String
  findUserByName : String
  findChannelByName : String
  sendData : String
  log : String
  playSample : String
  deriving DecidableEq, Repr

/-- API::getMumbleAPI_v_1_0_x from API.cpp: the v1.0.x host table. -/
def getMumbleAPI_v_1_0_x : MumbleAPI :=
  ⟨"freeMemory_v_1_0_x", "getActiveServerConnection_v_1_0_x", "getLocalUserID_v_1_0_x",
   "getUserName_v_1_0_x", "getChannelName_v_1_0_x", "getAllUsers_v_1_0_x",
   "getAllChannels_v_1_0_x", "getChannelOfUser_v_1_0_x", "getUsersInChannel_v_1_0_x",
   "getLocalUserTransmissionMode_v_1_0_x", "requestLocalUserTransmissionMode_v_1_0_x",
   "requestUserMove_v_1_0_x", "requestMicrophoneActivationOverwrite_v_1_0_x",
   "findUserByName_v_1_0_x", "findChannelByName_v_1_0_x", "sendData_v_1_0_x",
   "log_v_1_0_x", "playSample_v_1_0_x"⟩

/-- API::getMumbleAPI from API.cpp: switch on major then minor only (the
patch version must not involve API changes, so it is not considered);
no matching table throws std:invalid_argument, embedded as Except.error
carrying the exception message. -/
def getMumbleAPI (apiVersion : Version) : Except String MumbleAPI :=
  if apiVersion.major = 1 ∧ apiVersion.minor = 0 then
    Except.ok getMumbleAPI_v_1_0_x
  else
    Except.error ("No API functions for API version v" ++ toString apiVersion.major
      ++ "." ++ toString apiVersion.minor ++ ".x")

/-- Replace the registry entry with the given plugin ID (the registry's
shared_ptr aliasing means a mutation of the looked-up plugin object is
seen in the collection; IDs are unique by construction). -/
def updatePlugin (reg : List PluginState) (id : Nat) (q : PluginState) : List PluginState :=
  reg.map (fun p => if p.pluginID == id then q else p)

/-- PluginManager::getPlugin / pluginHashMap.value(id). -/
def findPlugin (reg : List PluginState) (id : Nat) : Option PluginState :=
  reg.find? (fun p => p.pluginID == id)

/-- The whole-manager state the positional data arbiter operates on:
the registry (in iteration order), the active positional plugin (by ID)
and the snapshot. -/
structure ArbiterState where
  registry : List PluginState
  activePositionalDataPlugin : Option Nat
  positionalData : PositionalData
  deriving DecidableEq, Repr

/-- The candidate loop of PluginManager::selectActivePositionalDataPlugin
(PluginManager.cpp): walk the registry in order; for each loaded,
positional-enabled plugin call Plugin::initPositionalData and switch on
the returned code: PDEC_OK makes the plugin the active source and stops;
PDEC_ERROR_PERM disables positional data for it and continues; any other
code (PDEC_ERROR_TEMP in particular) does nothing and continues.
Returns the updated registry and the selected plugin ID, if any. -/
def selectLoop : List PluginState → List PluginState × Option Nat
  | [] => ([], none)
  | p :: rest =>
    if p.positionalDataIsEnabled && p.pluginIsLoaded then
      let r := Plugin.initPositionalData p
      if r.2 = PDEC_OK then
        (r.1 :: rest, some r.1.pluginID)
      else if r.2 = PDEC_ERROR_PERM then
        let res := selectLoop rest
        ({ r.1 with positionalDataIsEnabled := false } :: res.1, res.2)
      else
        let res := selectLoop rest
        (r.1 :: res.1, res.2)
    else
      let res := selectLoop rest
      (p :: res.1, res.2)

/-- PluginManager::selectActivePositionalDataPlugin: when positional
transmission is disabled in the settings the active plugin is cleared and
false returned; otherwise the candidate loop runs and the active plugin
becomes its result (cleared when no candidate succeeded).  The boolean
result is whether a plugin was linked. -/
def PluginManager.selectActivePositionalDataPlugin (bTransmitPosition : Bool)
    (s : ArbiterState) : ArbiterState × Bool :=
  if !bTransmitPosition then
    ({ s with activePositionalDataPlugin := none }, false)
  else
    let r := selectLoop s.registry
    ({ s with registry := r.1, activePositionalDataPlugin := r.2 }, r.2.isSome)

/-- The g.bPosTest snapshot of PluginManager::fetchPositionalData: reset,
then point both direction vectors at z and both axes at y. -/
def posTestData (d : PositionalData) : PositionalData :=
  let r := PositionalData.reset d
  { r with
    playerDir := (0, 0, 1)
    playerAxis := (0, 1, 0)
    cameraDir := (0, 0, 1)
    cameraAxis := (0, 1, 0) }

/-- PluginManager::fetchPositionalData from PluginManager.cpp.  With no
active plugin, selection is attempted first and on failure the snapshot
is reset and false returned.  With an active plugin, its fetch function
fills the snapshot; a non-empty context is prefixed with the plugin name
and a NUL separator.  On a failed fetch the active plugin's positional
data is shut down and re-selection happens in the same tick.  On success
a player or camera position of exactly (0,0,0) is nudged to
(0,0,float-min) on the z axis so it stays distinguishable from the
audio mixer's "no positional data" origin sentinel.  (The branch taken
when the active ID is missing from the registry is unreachable: the
active plugin is always a registry member.) -/
def PluginManager.fetchPositionalData (bPosTest bTransmitPosition : Bool)
    (s : ArbiterState) : ArbiterState × Bool :=
  if bPosTest then
    ({ s with positionalData := posTestData s.positionalData }, true)
  else
    let s1 :=
      if s.activePositionalDataPlugin.isNone then
        (PluginManager.selectActivePositionalDataPlugin bTransmitPosition s).1
      else s
    match s1.activePositionalDataPlugin with
    | none => ({ s1 with positionalData := PositionalData.reset s1.positionalData }, false)
    | some id =>
      match findPlugin s1.registry id with
      | none => ({ s1 with positionalData := PositionalData.reset s1.positionalData }, false)
      | some plugin =>
        let fr := Plugin.fetchPositionalData plugin
        let snap0 : PositionalData :=
          ⟨fr.playerPos, fr.playerDir, fr.playerAxis, fr.cameraPos, fr.cameraDir,
           fr.cameraAxis, fr.context, fr.identity⟩
        let snap1 :=
          if snap0.context ≠ "" then
            { snap0 with
              context := Plugin.getName plugin ++ String.singleton (Char.ofNat 0)
                ++ snap0.context }
          else snap0
        if fr.retStatus = false then
          let pShut := (Plugin.shutdownPositionalData plugin).1
          let s2 : ArbiterState :=
            { s1 with registry := updatePlugin s1.registry id pShut, positionalData := snap1 }
          ((PluginManager.selectActivePositionalDataPlugin bTransmitPosition s2).1, false)
        else
          let snap2 :=
            if snap1.playerPos = Vector3D.zero then
              { snap1 with playerPos := (0, 0, floatMin) }
            else snap1
          let snap3 :=
            if snap2.cameraPos = Vector3D.zero then
              { snap2 with cameraPos := (0, 0, floatMin) }
            else snap2
          ({ s1 with positionalData := snap3 }, true)

/-- PluginManager::loadPlugin from PluginManager.cpp: missing plugin is a
failure; an already loaded plugin is a no-op success; otherwise run
Plugin::init and, on STATUS_OK, look the host-API table up for the
plugin's declared API version and register it.  When no table matches,
the thrown std:invalid_argument is caught, the freshly initialized
plugin is shut down again and false is returned.  Also returns the calls
made into plugin shutdown code. -/
def PluginManager.loadPlugin (reg : List PluginState) (id : Nat) :
    List PluginState × List PluginEvent × Bool :=
  match findPlugin reg id with
  | none => (reg, [], false)
  | some plugin =>
    if plugin.pluginIsLoaded then
      (reg, [], true)
    else
      let r := Plugin.init plugin
      if r.2 = ErrorCode.EC_OK then
        match getMumbleAPI (Plugin.getAPIVersion r.1) with
        | Except.ok _api => (updatePlugin reg id r.1, [], true)
        | Except.error _ =>
          let sh := Plugin.shutdown r.1
          (updatePlugin reg id sh.1, sh.2, false)
      else
        (updatePlugin reg id r.1, [], false)

/-- PluginManager::unloadPlugin: shut the plugin down only when it is
loaded (idempotent no-op otherwise). -/
def PluginManager.unloadPlugin (reg : List PluginState) (id : Nat) :
    List PluginState × List PluginEvent :=
  match findPlugin reg id with
  | none => (reg, [])
  | some plugin =>
    if plugin.pluginIsLoaded then
      let sh := Plugin.shutdown plugin
      (updatePlugin reg id sh.1, sh.2)
    else
      (reg, [])

/-- PluginManager::unloadPlugins: unloadPlugin for every key of the
registry, in iteration order. -/
def PluginManager.unloadPlugins (reg : List PluginState) :
    List PluginState × List PluginEvent :=
  (reg.map (fun p => p.pluginID)).foldl
    (fun acc id =>
      let r := PluginManager.unloadPlugin acc.1 id
      (r.1, acc.2 ++ r.2))
    (reg, [])

/-- PluginManager::clearPlugins: unload every plugin first (so that no
plugin's shutdown callback re-enters a cleared registry), then clear the
collection. -/
def PluginManager.clearPlugins (reg : List PluginState) :
    List PluginState × List PluginEvent :=
  ([], (PluginManager.unloadPlugins reg).2)

/-- A plugin's getUpdateDownloadURL chunk function as the host observes
it: for a given byte offset, the completion flag it returns and the text
it leaves in the 150-byte buffer (the host appends the buffer contents
regardless of the flag, reading up to the terminating NUL). -/
abbrev URLChunkFn := Nat → Bool × String

/-- The URL-assembly loop of Plugin::getUpdateDownloadURL (Plugin.cpp):
`while (!readCompleteURL)` call the plugin with the current offset,
append the returned buffer text, and advance the offset by the buffer
size 150.  The C++ loop has no iteration bound; the embedding adds
explicit fuel and returns none exactly when the loop is still running
after that many iterations, so the loop terminates in the source if and
only if some fuel yields a result here. -/
def Plugin.getUpdateDownloadURLLoop (f : URLChunkFn) :
    Nat → Nat → String → Option String
  | 0, _, _ => none
  | Nat.succ fuel, offset, strURL =>
    let call := f offset
    let strURL2 := strURL ++ call.2
    if call.1 then
      some strURL2
    else
      Plugin.getUpdateDownloadURLLoop f fuel (offset + 150) strURL2

/-- Plugin::getUpdateDownloadURL observed with the given fuel: the loop
started at offset 0 with the empty accumulator. -/
def Plugin.getUpdateDownloadURL (f : URLChunkFn) (fuel : Nat) : Option String :=
  Plugin.getUpdateDownloadURLLoop f fuel 0 ""

/-- The state of a LegacyPlugin object together with its library's
behaviour: whether getMumblePlugin2 resolved (mumPlug2 non-null) and the
integer codes the two trylock variants return (legacy plugins return 1
on successful locking and 0 on failure, but any non-zero value counts as
success in the source's `if (retCode)`). -/
structure LegacyPluginState where
  positionalDataIsActive : Bool
  hasMumPlug2 : Bool
  trylock2Result : Int
  trylockResult : Int
  deriving DecidableEq, Repr

/-- LegacyPlugin::initPositionalData from LegacyPlugin.cpp: call the
newer trylock(pidMap) when mumPlug2 is available, the plain trylock
otherwise; a non-zero code sets the active flag and yields PDEC_OK, a
zero code yields PDEC_ERROR_TEMP because legacy plugins cannot indicate
a permanent error. -/
def LegacyPlugin.initPositionalData (p : LegacyPluginState) : LegacyPluginState × Nat :=
  let retCode : Int := if p.hasMumPlug2 then p.trylock2Result else p.trylockResult
  if retCode ≠ 0 then
    ({ p with positionalDataIsActive := true }, PDEC_OK)
  else
    (p, PDEC_ERROR_TEMP)

/-- Number of registry descriptors whose positionalDataActive flag is set. -/
def countPositionalDataActive (reg : List PluginState) : Nat :=
  (reg.filter (fun p => p.positionalDataIsActive)).length

/-- An all-zero, all-empty positional snapshot (freshly constructed). -/
def emptyPositionalData : PositionalData :=
  ⟨Vector3D.zero, Vector3D.zero, Vector3D.zero, Vector3D.zero, Vector3D.zero,
   Vector3D.zero, "", ""⟩

/-- A library exporting nothing, with neutral behaviour, used as the base
of concrete test libraries. -/
def baseLibrary : Library :=
  ⟨[], ErrorCode.EC_OK, PDEC_OK, ⟨1, 0, 0⟩, "testPlugin", true,
   Vector3D.zero, Vector3D.zero, Vector3D.zero, Vector3D.zero, Vector3D.zero,
   Vector3D.zero, "", ""⟩

/-- The five mandatory entry-point symbol names. -/
def mandatorySymbols : List String :=
  ["mumble_init", "mumble_shutdown", "mumble_getName", "mumble_getAPIVersion",
   "mumble_registerAPIFunctions"]

/-- The three positional entry-point symbol names. -/
def positionalSymbols : List String :=
  ["mumble_initPositionalData", "mumble_fetchPositionalData",
   "mumble_shutdownPositionalData"]

/-- A loaded, positional-enabled plugin whose library exports the
mandatory and the full positional symbol sets and whose positional init
returns the given code. -/
def mkLoadedPosPlugin (id : Nat) (posResult : Nat) : PluginState :=
  let lib : Library :=
    { baseLibrary with
      exported := mandatorySymbols ++ positionalSymbols
      initPositionalDataResult := posResult }
  { pluginID := id
    lib := lib
    apiFnc := (Plugin.resolveFunctionPointers true lib).apiFnc
    pluginIsValid := true
    pluginIsLoaded := true
    positionalDataIsEnabled := true
    positionalDataIsActive := false }

/-- A library exporting the mandatory symbols plus exactly two of the
three positional symbols (a non-empty strict subset). -/
def partialPosLibrary : Library :=
  { baseLibrary with
    exported := mandatorySymbols
      ++ ["mumble_initPositionalData", "mumble_fetchPositionalData"] }

/-- A valid, not-yet-loaded plugin whose library declares the
unsupported API version (2,0,0). -/
def badVersionPlugin : PluginState :=
  let lib : Library :=
    { baseLibrary with exported := mandatorySymbols, apiVersion := ⟨2, 0, 0⟩ }
  { pluginID := 3
    lib := lib
    apiFnc := (Plugin.resolveFunctionPointers true lib).apiFnc
    pluginIsValid := true
    pluginIsLoaded := false
    positionalDataIsEnabled := true
    positionalDataIsActive := false }

/-- A loaded plugin that is currently the active positional source. -/
def activePosPlugin (id : Nat) : PluginState :=
  { mkLoadedPosPlugin id PDEC_OK with positionalDataIsActive := true }

end MumbleHost

namespace MumbleHost

lemma any_eq_false_of_filter_out {α : Type} (f : α → Bool) (l : List α) :
    (l.filter (fun e => !(f e))).any f = false := by
  induction l with
  | nil => rfl
  | cons a t ih =>
    by_cases h : f a = true
    · simp [List.filter_cons, h, ih]
    · have h' : f a = false := by simpa using h
      simp [List.filter_cons, h', ih]

lemma find?_eq_none_of_any_eq_false {α : Type} (f : α → Bool) (l : List α)
    (h : l.any f = false) : l.find? f = none := by
  induction l with
  | nil => rfl
  | cons a t ih =>
    rw [List.any_cons, Bool.or_eq_false_iff] at h
    rw [List.find?_cons, h.1]
    exact ih h.2

lemma freeMemory_of_find?_none (c : MumbleAPICurator) (p : Ptr)
    (h : c.deleteFunctions.find? (fun e => e.1 == p) = none) :
    freeMemory_v_1_0_x c p = ⟨c, [], ErrorCode.EC_POINTER_NOT_FOUND⟩ := by
  simp [freeMemory_v_1_0_x, h]

lemma freeMemory_of_find?_some (c : MumbleAPICurator) (p : Ptr) (entry : Ptr × Deleter)
    (h : c.deleteFunctions.find? (fun e => e.1 == p) = some entry) :
    freeMemory_v_1_0_x c p
      = ⟨⟨c.deleteFunctions.filter (fun e => !(e.1 == p))⟩, [(entry.2, p)],
         ErrorCode.EC_OK⟩ := by
  simp [freeMemory_v_1_0_x, h]

/-- C1: releasing a tracked pointer through freeMemory invokes its
recorded release function exactly once, removes the record, and a second
release (or a release of a never-tracked pointer) returns
EC_POINTER_NOT_FOUND without invoking any release function. -/
theorem freeMemory_at_most_once (c : MumbleAPICurator) (p : Ptr) :
    (∀ d : Deleter, c.lookup p = some d →
      (freeMemory_v_1_0_x c p).ret = ErrorCode.EC_OK ∧
      (freeMemory_v_1_0_x c p).invocations = [(d, p)] ∧
      (freeMemory_v_1_0_x c p).curator.contains p = false ∧
      (freeMemory_v_1_0_x (freeMemory_v_1_0_x c p).curator p).ret
        = ErrorCode.EC_POINTER_NOT_FOUND ∧
      (freeMemory_v_1_0_x (freeMemory_v_1_0_x c p).curator p).invocations = []) ∧
    (c.contains p = false →
      (freeMemory_v_1_0_x c p).ret = ErrorCode.EC_POINTER_NOT_FOUND ∧
      (freeMemory_v_1_0_x c p).invocations = [] ∧
      (freeMemory_v_1_0_x c p).curator = c) := by
  constructor
  · intro d hd
    unfold MumbleAPICurator.lookup at hd
    cases hfind : c.deleteFunctions.find? (fun e => e.1 == p) with
    | none => rw [hfind] at hd; exact absurd hd (by simp)
    | some entry =>
      rw [hfind] at hd
      have hd2 : entry.2 = d := by simpa using hd
      have hafter :
          (⟨c.deleteFunctions.filter (fun e => !(e.1 == p))⟩ :
            MumbleAPICurator).deleteFunctions.find? (fun e => e.1 == p) = none :=
        find?_eq_none_of_any_eq_false _ _
          (any_eq_false_of_filter_out (fun e => e.1 == p) c.deleteFunctions)
      rw [freeMemory_of_find?_some c p entry hfind]
      rw [freeMemory_of_find?_none _ p hafter]
      refine ⟨rfl, by rw [hd2], ?_, rfl, rfl⟩
      exact any_eq_false_of_filter_out (fun e => e.1 == p) c.deleteFunctions
  · intro hc
    unfold MumbleAPICurator.contains at hc
    have hfind := find?_eq_none_of_any_eq_false (fun e => e.1 == p) c.deleteFunctions hc
    rw [freeMemory_of_find?_none c p hfind]
    exact ⟨rfl, rfl, rfl⟩

/-- Witness for C1 at a concrete one-entry curator. -/
theorem freeMemory_at_most_once_witness :
    (freeMemory_v_1_0_x ⟨[(5, 7)]⟩ 5).ret = ErrorCode.EC_OK ∧
    (freeMemory_v_1_0_x ⟨[(5, 7)]⟩ 5).invocations = [(7, 5)] ∧
    (freeMemory_v_1_0_x (freeMemory_v_1_0_x ⟨[(5, 7)]⟩ 5).curator 5).ret
      = ErrorCode.EC_POINTER_NOT_FOUND ∧
    (freeMemory_v_1_0_x ⟨[]⟩ 5).ret = ErrorCode.EC_POINTER_NOT_FOUND := by
  have h := (freeMemory_at_most_once ⟨[(5, 7)]⟩ 5).1 7 (by decide)
  have h2 := (freeMemory_at_most_once ⟨[]⟩ 5).2 (by decide)
  exact ⟨h.1, h.2.1, h.2.2.2.1, h2.1⟩

/-- C9: the Version comparison operators do not define a total or even a
consistent partial order: at a = (1,0,5), b = (2,0,3) all of a<b, b<a,
a<=b, b<=a, a>b, b>a, a>=b, b>=a and a==b are false, totality of the
comparison family fails, and <= is not the reflexive closure of <. -/
theorem version_operators_not_an_order :
    (Version.eq ⟨1, 0, 5⟩ ⟨2, 0, 3⟩ = false ∧
     Version.lt ⟨1, 0, 5⟩ ⟨2, 0, 3⟩ = false ∧ Version.lt ⟨2, 0, 3⟩ ⟨1, 0, 5⟩ = false ∧
     Version.le ⟨1, 0, 5⟩ ⟨2, 0, 3⟩ = false ∧ Version.le ⟨2, 0, 3⟩ ⟨1, 0, 5⟩ = false ∧
     Version.gt ⟨1, 0, 5⟩ ⟨2, 0, 3⟩ = false ∧ Version.gt ⟨2, 0, 3⟩ ⟨1, 0, 5⟩ = false ∧
     Version.ge ⟨1, 0, 5⟩ ⟨2, 0, 3⟩ = false ∧ Version.ge ⟨2, 0, 3⟩ ⟨1, 0, 5⟩ = false) ∧
    (¬ ∀ a b : Version,
        Version.lt a b = true ∨ Version.eq a b = true ∨ Version.lt b a = true) ∧
    (¬ ∀ a b : Version,
        Version.le a b = true ↔ (Version.lt a b = true ∨ Version.eq a b = true)) := by
  refine ⟨by decide, ?_, ?_⟩
  · intro h
    rcases h ⟨1, 0, 5⟩ ⟨2, 0, 3⟩ with h' | h' | h' <;> revert h' <;> decide
  · intro h
    have h' := (h ⟨1, 0, 0⟩ ⟨1, 1, 0⟩).mp (by decide)
    rcases h' with h' | h' <;> revert h' <;> decide

/-- C10: LegacyPlugin's positional init returns only PDEC_OK or
PDEC_ERROR_TEMP, never PDEC_ERROR_PERM; the active flag is set exactly
on success and the state is untouched on failure. -/
theorem legacy_initPositionalData_never_permanent (p : LegacyPluginState) :
    ((LegacyPlugin.initPositionalData p).2 = PDEC_OK ∨
     (LegacyPlugin.initPositionalData p).2 = PDEC_ERROR_TEMP) ∧
    (LegacyPlugin.initPositionalData p).2 ≠ PDEC_ERROR_PERM ∧
    ((LegacyPlugin.initPositionalData p).2 = PDEC_OK →
      (LegacyPlugin.initPositionalData p).1.positionalDataIsActive = true) ∧
    ((LegacyPlugin.initPositionalData p).2 ≠ PDEC_OK →
      (LegacyPlugin.initPositionalData p).1 = p) := by
  unfold LegacyPlugin.initPositionalData
  by_cases h : (if p.hasMumPlug2 then p.trylock2Result else p.trylockResult) = 0
  · simp [h, PDEC_OK, PDEC_ERROR_TEMP, PDEC_ERROR_PERM]
  · simp [h, PDEC_OK, PDEC_ERROR_TEMP, PDEC_ERROR_PERM]

/-- Witness for C10 at a legacy plugin whose trylock succeeds. -/
theorem legacy_initPositionalData_never_permanent_witness :
    (LegacyPlugin.initPositionalData ⟨false, false, 1, 1⟩).2 ≠ PDEC_ERROR_PERM ∧
    (LegacyPlugin.initPositionalData ⟨false, false, 1, 1⟩).1.positionalDataIsActive
      = true := by
  have h := legacy_initPositionalData_never_permanent ⟨false, false, 1, 1⟩
  exact ⟨h.2.1, h.2.2.1 (by decide)⟩

lemma urlLoop_isSome_of_complete (f : URLChunkFn) :
    ∀ (k offset : Nat) (acc : String), (f (offset + 150 * k)).1 = true →
      (Plugin.getUpdateDownloadURLLoop f (k + 1) offset acc).isSome = true := by
  intro k
  induction k with
  | zero =>
    intro offset acc h
    rw [Nat.mul_zero, Nat.add_zero] at h
    simp [Plugin.getUpdateDownloadURLLoop, h]
  | succ n ih =>
    intro offset acc h
    by_cases hc : (f offset).1 = true
    · simp [Plugin.getUpdateDownloadURLLoop, hc]
    · have hc' : (f offset).1 = false := by simpa using hc
      simp only [Plugin.getUpdateDownloadURLLoop, hc', Bool.false_eq_true, if_false]
      apply ih
      have e : offset + 150 + 150 * n = offset + 150 * (n + 1) := by ring
      rw [e]
      exact h

lemma urlLoop_none_of_never_complete (f : URLChunkFn) :
    ∀ (fuel offset : Nat) (acc : String), (∀ k, (f (offset + 150 * k)).1 = false) →
      Plugin.getUpdateDownloadURLLoop f fuel offset acc = none := by
  intro fuel
  induction fuel with
  | zero => intro offset acc _; rfl
  | succ n ih =>
    intro offset acc h
    have h0 : (f offset).1 = false := by
      have := h 0
      rwa [Nat.mul_zero, Nat.add_zero] at this
    simp only [Plugin.getUpdateDownloadURLLoop, h0, Bool.false_eq_true, if_false]
    apply ih
    intro k
    have e : offset + 150 + 150 * k = offset + 150 * (k + 1) := by ring
    rw [e]
    exact h (k + 1)

/-- C8 counterexample: the claim that the URL-assembly loop terminates
for every plugin behaviour is false: the loop in the source has no
iteration cap, so for the plugin that never signals completion no amount
of fuel makes the embedded loop produce a result. -/
theorem getUpdateDownloadURL_no_cap :
    ¬ ∀ f : URLChunkFn, ∃ fuel, (Plugin.getUpdateDownloadURL f fuel).isSome = true := by
  intro h
  obtain ⟨fuel, hf⟩ := h (fun _ => (false, ""))
  rw [Plugin.getUpdateDownloadURL,
    urlLoop_none_of_never_complete (fun _ => (false, "")) fuel 0 "" (fun _ => rfl)] at hf
  exact absurd hf (by simp)

/-- C8 amended: the URL-assembly loop advances the offset by the fixed
buffer size 150 each iteration, concatenating chunks, and terminates
exactly when the plugin eventually signals completion; there is no cap,
so a plugin that never signals completion loops forever. -/
theorem getUpdateDownloadURL_terminates_iff_completion (f : URLChunkFn) :
    ((∃ k, (f (150 * k)).1 = true) →
      ∃ fuel, (Plugin.getUpdateDownloadURL f fuel).isSome = true) ∧
    ((∀ k, (f (150 * k)).1 = false) →
      ∀ fuel, Plugin.getUpdateDownloadURL f fuel = none) := by
  constructor
  · rintro ⟨k, hk⟩
    refine ⟨k + 1, ?_⟩
    unfold Plugin.getUpdateDownloadURL
    apply urlLoop_isSome_of_complete
    rwa [Nat.zero_add]
  · intro h fuel
    unfold Plugin.getUpdateDownloadURL
    apply urlLoop_none_of_never_complete
    intro k
    rw [Nat.zero_add]
    exact h k

/-- Witness for the amended C8 at a plugin that completes immediately. -/
theorem getUpdateDownloadURL_terminates_iff_completion_witness :
    ∃ fuel,
      (Plugin.getUpdateDownloadURL (fun _ => (true, "https://example.com")) fuel).isSome
        = true :=
  (getUpdateDownloadURL_terminates_iff_completion
    (fun _ => (true, "https://example.com"))).1 ⟨0, rfl⟩

/-- C2 (code bug): after one invocation of the positional selection on a
reachable two-plugin registry - both loaded and positional-enabled, the
first plugin's positional init reporting a temporary error and the
second reporting success - both descriptors end up with
positionalDataActive set, violating the at-most-one-active invariant,
because Plugin::initPositionalData raises the flag before the plugin
reports whether initialization succeeded. -/
theorem select_leaves_two_active_flags :
    countPositionalDataActive
      ((PluginManager.selectActivePositionalDataPlugin true
        ⟨[mkLoadedPosPlugin 1 PDEC_ERROR_TEMP, mkLoadedPosPlugin 2 PDEC_OK], none,
         emptyPositionalData⟩).1.registry) = 2 := by
  decide

lemma resolveFunctionPointers_trio (lib : Library)
    (hm : (lib.resolve "mumble_init" && lib.resolve "mumble_shutdown"
      && lib.resolve "mumble_getName" && lib.resolve "mumble_getAPIVersion"
      && lib.resolve "mumble_registerAPIFunctions") = true) :
    (Plugin.resolveFunctionPointers true lib).apiFnc.initPositionalData
      = (lib.resolve "mumble_initPositionalData"
         && lib.resolve "mumble_fetchPositionalData"
         && lib.resolve "mumble_shutdownPositionalData") ∧
    (Plugin.resolveFunctionPointers true lib).apiFnc.fetchPositionalData
      = (lib.resolve "mumble_initPositionalData"
         && lib.resolve "mumble_fetchPositionalData"
         && lib.resolve "mumble_shutdownPositionalData") ∧
    (Plugin.resolveFunctionPointers true lib).apiFnc.shutdownPositionalData
      = (lib.resolve "mumble_initPositionalData"
         && lib.resolve "mumble_fetchPositionalData"
         && lib.resolve "mumble_shutdownPositionalData") ∧
    (Plugin.resolveFunctionPointers true lib).pluginIsValid = true := by
  cases hi : lib.resolve "mumble_initPositionalData" <;>
    cases hf : lib.resolve "mumble_fetchPositionalData" <;>
      cases hs : lib.resolve "mumble_shutdownPositionalData" <;>
        simp [Plugin.resolveFunctionPointers, hm, hi, hf, hs]

lemma resolveFunctionPointers_invalid (lib : Library)
    (hm : (lib.resolve "mumble_init" && lib.resolve "mumble_shutdown"
      && lib.resolve "mumble_getName" && lib.resolve "mumble_getAPIVersion"
      && lib.resolve "mumble_registerAPIFunctions") = false) :
    (Plugin.resolveFunctionPointers true lib).apiFnc.initPositionalData = false ∧
    (Plugin.resolveFunctionPointers true lib).apiFnc.fetchPositionalData = false ∧
    (Plugin.resolveFunctionPointers true lib).apiFnc.shutdownPositionalData = false ∧
    (Plugin.resolveFunctionPointers true lib).pluginIsValid = false := by
  refine ⟨?_, ?_, ?_, ?_⟩ <;>
    simp [Plugin.resolveFunctionPointers, hm, PluginAPIFunctions.null]

/-- C3: when a non-empty strict subset of the three positional symbols
resolves, all three function-table entries are forced to null, so a call
through Plugin::initPositionalData returns PDEC_ERROR_PERM without
touching the descriptor (POSITIONAL is unsupported no matter what the
plugin self-reports); when all three or none resolve, the entries keep
their resolved values. -/
theorem resolveFunctionPointers_positional_all_or_nothing (lib : Library) :
    ((!(lib.resolve "mumble_initPositionalData"
        && lib.resolve "mumble_fetchPositionalData"
        && lib.resolve "mumble_shutdownPositionalData")
      && (lib.resolve "mumble_initPositionalData"
        || lib.resolve "mumble_fetchPositionalData"
        || lib.resolve "mumble_shutdownPositionalData")) = true →
      (Plugin.resolveFunctionPointers true lib).apiFnc.initPositionalData = false ∧
      (Plugin.resolveFunctionPointers true lib).apiFnc.fetchPositionalData = false ∧
      (Plugin.resolveFunctionPointers true lib).apiFnc.shutdownPositionalData = false ∧
      (∀ p : PluginState,
        p.apiFnc = (Plugin.resolveFunctionPointers true lib).apiFnc →
        (Plugin.initPositionalData p).2 = PDEC_ERROR_PERM ∧
        (Plugin.initPositionalData p).1 = p)) ∧
    ((Plugin.resolveFunctionPointers true lib).pluginIsValid = true →
      (!(lib.resolve "mumble_initPositionalData"
          && lib.resolve "mumble_fetchPositionalData"
          && lib.resolve "mumble_shutdownPositionalData")
        && (lib.resolve "mumble_initPositionalData"
          || lib.resolve "mumble_fetchPositionalData"
          || lib.resolve "mumble_shutdownPositionalData")) = false →
      (Plugin.resolveFunctionPointers true lib).apiFnc.initPositionalData
        = lib.resolve "mumble_initPositionalData" ∧
      (Plugin.resolveFunctionPointers true lib).apiFnc.fetchPositionalData
        = lib.resolve "mumble_fetchPositionalData" ∧
      (Plugin.resolveFunctionPointers true lib).apiFnc.shutdownPositionalData
        = lib.resolve "mumble_shutdownPositionalData") := by
  by_cases hm : (lib.resolve "mumble_init" && lib.resolve "mumble_shutdown"
      && lib.resolve "mumble_getName" && lib.resolve "mumble_getAPIVersion"
      && lib.resolve "mumble_registerAPIFunctions") = true
  · obtain ⟨e1, e2, e3, _⟩ := resolveFunctionPointers_trio lib hm
    constructor
    · intro hp
      rw [Bool.and_eq_true] at hp
      have hc : (lib.resolve "mumble_initPositionalData"
          && lib.resolve "mumble_fetchPositionalData"
          && lib.resolve "mumble_shutdownPositionalData") = false := by
        rcases Bool.eq_false_or_eq_true (lib.resolve "mumble_initPositionalData"
            && lib.resolve "mumble_fetchPositionalData"
            && lib.resolve "mumble_shutdownPositionalData") with h | h
        · rw [h] at hp
          exact absurd hp.1 (by decide)
        · exact h
      refine ⟨by rw [e1, hc], by rw [e2, hc], by rw [e3, hc], ?_⟩
      intro p hap
      have hnull : p.apiFnc.initPositionalData = false := by rw [hap, e1, hc]
      constructor
      · simp [Plugin.initPositionalData, hnull]
      · simp [Plugin.initPositionalData, hnull]
    · intro _ hp
      rcases Bool.eq_false_or_eq_true (lib.resolve "mumble_initPositionalData"
          && lib.resolve "mumble_fetchPositionalData"
          && lib.resolve "mumble_shutdownPositionalData") with hc | hc
      · have hall := hc
        rw [Bool.and_eq_true, Bool.and_eq_true] at hall
        exact ⟨by rw [e1, hc, hall.1.1], by rw [e2, hc, hall.1.2], by rw [e3, hc, hall.2]⟩
      · have hd : (lib.resolve "mumble_initPositionalData"
            || lib.resolve "mumble_fetchPositionalData"
            || lib.resolve "mumble_shutdownPositionalData") = false := by
          rw [hc] at hp
          simpa using hp
        rw [Bool.or_eq_false_iff, Bool.or_eq_false_iff] at hd
        exact ⟨by rw [e1, hc, hd.1.1], by rw [e2, hc, hd.1.2], by rw [e3, hc, hd.2]⟩
  · have hm' := hm
    rw [Bool.not_eq_true] at hm'
    have hearly := resolveFunctionPointers_invalid lib hm'
    constructor
    · intro _
      refine ⟨hearly.1, hearly.2.1, hearly.2.2.1, ?_⟩
      intro p hap
      have hnull : p.apiFnc.initPositionalData = false := by rw [hap, hearly.1]
      constructor
      · simp [Plugin.initPositionalData, hnull]
      · simp [Plugin.initPositionalData, hnull]
    · intro hvalid _
      rw [hvalid] at hearly
      exact absurd hearly.2.2.2 (by simp)

/-- Witness for C3 at a library exporting exactly two of the three
positional symbols. -/
theorem resolveFunctionPointers_positional_all_or_nothing_witness :
    (Plugin.resolveFunctionPointers true partialPosLibrary).apiFnc.initPositionalData
      = false ∧
    (Plugin.resolveFunctionPointers true partialPosLibrary).apiFnc.fetchPositionalData
      = false ∧
    (Plugin.resolveFunctionPointers true partialPosLibrary).apiFnc.shutdownPositionalData
      = false := by
  have h :=
    (resolveFunctionPointers_positional_all_or_nothing partialPosLibrary).1 (by decide)
  exact ⟨h.1, h.2.1, h.2.2.1⟩

/-- C4: the selection loop visits loaded, positional-enabled plugins in
registry order; a PDEC_OK result of initPositionalData makes that plugin
the active source and stops the search, PDEC_ERROR_PERM disables
positional data for the plugin and continues, any other code (temporary
errors in particular) skips the plugin leaving it enabled, non-eligible
plugins are passed over; and when selection yields no candidate during a
fetch tick, the active source stays cleared and the snapshot is reset to
zero/empty. -/
theorem selectActivePositionalDataPlugin_algorithm :
    (∀ (p : PluginState) (rest : List PluginState),
      (p.positionalDataIsEnabled && p.pluginIsLoaded) = true →
      (((Plugin.initPositionalData p).2 = PDEC_OK →
          selectLoop (p :: rest)
            = ((Plugin.initPositionalData p).1 :: rest,
               some (Plugin.initPositionalData p).1.pluginID)) ∧
       ((Plugin.initPositionalData p).2 = PDEC_ERROR_PERM →
          selectLoop (p :: rest)
            = ({ (Plugin.initPositionalData p).1 with positionalDataIsEnabled := false }
                 :: (selectLoop rest).1, (selectLoop rest).2)) ∧
       ((Plugin.initPositionalData p).2 ≠ PDEC_OK →
        (Plugin.initPositionalData p).2 ≠ PDEC_ERROR_PERM →
          selectLoop (p :: rest)
            = ((Plugin.initPositionalData p).1 :: (selectLoop rest).1,
               (selectLoop rest).2) ∧
          (Plugin.initPositionalData p).1.positionalDataIsEnabled
            = p.positionalDataIsEnabled))) ∧
    (∀ (p : PluginState) (rest : List PluginState),
      (p.positionalDataIsEnabled && p.pluginIsLoaded) = false →
      selectLoop (p :: rest) = (p :: (selectLoop rest).1, (selectLoop rest).2)) ∧
    (∀ (bT : Bool) (s : ArbiterState),
      s.activePositionalDataPlugin = none →
      (PluginManager.selectActivePositionalDataPlugin bT s).1.activePositionalDataPlugin
        = none →
      (PluginManager.fetchPositionalData false bT s).1.activePositionalDataPlugin
        = none ∧
      (PluginManager.fetchPositionalData false bT s).1.positionalData
        = PositionalData.reset s.positionalData ∧
      (PluginManager.fetchPositionalData false bT s).2 = false) := by
  refine ⟨?_, ?_, ?_⟩
  · intro p rest hel
    refine ⟨?_, ?_, ?_⟩
    · intro hok
      simp only [selectLoop, hel, if_true]
      rw [if_pos hok]
    · intro hperm
      have hne : ¬ (Plugin.initPositionalData p).2 = PDEC_OK := by
        rw [hperm]
        decide
      simp only [selectLoop, hel, if_true]
      rw [if_neg hne, if_pos hperm]
    · intro hne hnp
      constructor
      · simp only [selectLoop, hel, if_true]
        rw [if_neg hne, if_neg hnp]
      · unfold Plugin.initPositionalData
        by_cases hfn : p.apiFnc.initPositionalData = true
        · simp [hfn]
        · simp [hfn]
  · intro p rest hel
    simp [selectLoop, hel]
  · intro bT s hact hsel
    have hnone : (if s.activePositionalDataPlugin.isNone
        then (PluginManager.selectActivePositionalDataPlugin bT s).1 else s)
          = (PluginManager.selectActivePositionalDataPlugin bT s).1 := by
      rw [hact]
      simp
    refine ⟨?_, ?_, ?_⟩ <;>
      (simp only [PluginManager.fetchPositionalData, Bool.false_eq_true, if_false, hnone,
        hsel]
       try rfl)

/-- Witness for C4: a single eligible plugin whose positional init
succeeds is selected and stops the search, and a fetch tick on an empty
registry resets the snapshot. -/
theorem selectActivePositionalDataPlugin_algorithm_witness :
    selectLoop [mkLoadedPosPlugin 1 PDEC_OK]
      = ((Plugin.initPositionalData (mkLoadedPosPlugin 1 PDEC_OK)).1 :: [],
         some (Plugin.initPositionalData (mkLoadedPosPlugin 1 PDEC_OK)).1.pluginID) ∧
    (PluginManager.fetchPositionalData false true
        ⟨[], none, emptyPositionalData⟩).1.positionalData
      = PositionalData.reset emptyPositionalData := by
  constructor
  · exact (selectActivePositionalDataPlugin_algorithm.1 (mkLoadedPosPlugin 1 PDEC_OK) []
      (by decide)).1 (by decide)
  · exact (selectActivePositionalDataPlugin_algorithm.2.2 true
      ⟨[], none, emptyPositionalData⟩ rfl (by decide)).2.1

/-- C6: clearing the registry with one plugin loaded and positionally
active calls that plugin's shutdownPositionalData and shutdown exactly
once each, in that order, and only then removes the descriptor; and
unloading a plugin that is not loaded is an idempotent no-op. -/
theorem clearPlugins_unload_before_clear :
    (∀ p : PluginState,
      p.pluginIsLoaded = true → p.positionalDataIsActive = true →
      p.apiFnc.shutdownPositionalData = true → p.apiFnc.shutdown = true →
      PluginManager.clearPlugins [p]
        = ([], [PluginEvent.shutdownPositionalDataCall p.pluginID,
                PluginEvent.shutdownCall p.pluginID])) ∧
    (∀ (reg : List PluginState) (id : Nat) (p : PluginState),
      findPlugin reg id = some p → p.pluginIsLoaded = false →
      PluginManager.unloadPlugin reg id = (reg, [])) := by
  constructor
  · intro p h1 h2 h3 h4
    have hfind : findPlugin [p] p.pluginID = some p := by
      simp [findPlugin]
    simp [PluginManager.clearPlugins, PluginManager.unloadPlugins,
      PluginManager.unloadPlugin, hfind, Plugin.shutdown, Plugin.shutdownPositionalData,
      h1, h2, h3, h4]
  · intro reg id p hfind hnl
    simp [PluginManager.unloadPlugin, hfind, hnl]

/-- Witness for C6: clearing a one-plugin registry with an active
positional plugin, and unloading a never-loaded plugin. -/
theorem clearPlugins_unload_before_clear_witness :
    PluginManager.clearPlugins [activePosPlugin 4]
      = ([], [PluginEvent.shutdownPositionalDataCall 4, PluginEvent.shutdownCall 4]) ∧
    PluginManager.unloadPlugin [badVersionPlugin] 3 = ([badVersionPlugin], []) := by
  constructor
  · exact clearPlugins_unload_before_clear.1 (activePosPlugin 4) (by decide) (by decide)
      (by decide) (by decide)
  · exact clearPlugins_unload_before_clear.2 [badVersionPlugin] 3 badVersionPlugin
      (by decide) (by decide)

lemma plugin_init_of_ok (p : PluginState) (hnl : p.pluginIsLoaded = false)
    (hok : (Plugin.init p).2 = ErrorCode.EC_OK) :
    Plugin.init p = ({ p with pluginIsLoaded := true }, ErrorCode.EC_OK) := by
  by_cases hr : (if p.apiFnc.init then p.lib.initResult else ErrorCode.EC_OK)
      = ErrorCode.EC_OK
  · simp [Plugin.init, hnl, hr]
  · simp [Plugin.init, hnl, hr] at hok

lemma plugin_shutdown_unloads (p : PluginState) (hl : p.pluginIsLoaded = true) :
    (Plugin.shutdown p).1.pluginIsLoaded = false := by
  simp [Plugin.shutdown, hl]

lemma plugin_shutdown_calls (p : PluginState) (hl : p.pluginIsLoaded = true)
    (hsh : p.apiFnc.shutdown = true) :
    PluginEvent.shutdownCall p.pluginID ∈ (Plugin.shutdown p).2 := by
  by_cases ha : p.positionalDataIsActive = true
  · by_cases hf : p.apiFnc.shutdownPositionalData = true
    · simp [Plugin.shutdown, Plugin.shutdownPositionalData, hl, ha, hf, hsh]
    · simp [Plugin.shutdown, Plugin.shutdownPositionalData, hl, ha, hf, hsh]
  · simp [Plugin.shutdown, hl, ha, hsh]

/-- C5: the host-API table lookup is patch-insensitive - versions
(1,0,0) and (1,0,7) yield the same table - while a version with no
registered table such as (2,0,0) raises the unsupported-version error;
and when that error occurs during loading, the load fails, the freshly
initialized plugin is shut down immediately and ends up unloaded. -/
theorem getMumbleAPI_version_dispatch :
    (getMumbleAPI ⟨1, 0, 0⟩ = Except.ok getMumbleAPI_v_1_0_x ∧
     getMumbleAPI ⟨1, 0, 7⟩ = Except.ok getMumbleAPI_v_1_0_x) ∧
    (∃ msg, getMumbleAPI ⟨2, 0, 0⟩ = Except.error msg) ∧
    (∀ (reg : List PluginState) (id : Nat) (p : PluginState),
      findPlugin reg id = some p →
      p.pluginIsLoaded = false →
      (Plugin.init p).2 = ErrorCode.EC_OK →
      (∃ e, getMumbleAPI (Plugin.getAPIVersion (Plugin.init p).1) = Except.error e) →
      p.apiFnc.shutdown = true →
      (PluginManager.loadPlugin reg id).2.2 = false ∧
      PluginEvent.shutdownCall p.pluginID ∈ (PluginManager.loadPlugin reg id).2.1 ∧
      (∀ q ∈ (PluginManager.loadPlugin reg id).1,
        q.pluginID = id → q.pluginIsLoaded = false)) := by
  refine ⟨⟨rfl, rfl⟩, ⟨_, rfl⟩, ?_⟩
  intro reg id p hfind hnl hok herr hsh
  obtain ⟨e, herr⟩ := herr
  have hinit := plugin_init_of_ok p hnl hok
  have hload : PluginManager.loadPlugin reg id
      = (updatePlugin reg id (Plugin.shutdown (Plugin.init p).1).1,
         (Plugin.shutdown (Plugin.init p).1).2, false) := by
    unfold PluginManager.loadPlugin
    rw [hfind]
    simp only [hnl, Bool.false_eq_true, if_false]
    rw [if_pos hok, herr]
  have hl1 : (Plugin.init p).1.pluginIsLoaded = true := by rw [hinit]
  have hsh1 : (Plugin.init p).1.apiFnc.shutdown = true := by rw [hinit]; exact hsh
  have hid1 : (Plugin.init p).1.pluginID = p.pluginID := by rw [hinit]
  rw [hload]
  refine ⟨rfl, ?_, ?_⟩
  · have hmem := plugin_shutdown_calls (Plugin.init p).1 hl1 hsh1
    rw [hid1] at hmem
    exact hmem
  · intro q hq hqid
    unfold updatePlugin at hq
    rw [List.mem_map] at hq
    obtain ⟨x, _hx, rfl⟩ := hq
    by_cases h : (x.pluginID == id) = true
    · rw [if_pos h]
      exact plugin_shutdown_unloads (Plugin.init p).1 hl1
    · rw [if_neg h] at hqid ⊢
      exact absurd (beq_iff_eq.mpr hqid) h

/-- Witness for C5: loading a plugin declaring API version (2,0,0) fails
and the plugin's shutdown entry point is called. -/
theorem getMumbleAPI_version_dispatch_witness :
    (PluginManager.loadPlugin [badVersionPlugin] 3).2.2 = false ∧
    PluginEvent.shutdownCall 3 ∈ (PluginManager.loadPlugin [badVersionPlugin] 3).2.1 := by
  have h := getMumbleAPI_version_dispatch.2.2 [badVersionPlugin] 3 badVersionPlugin
    (by decide) (by decide) (by decide) ⟨_, rfl⟩ (by decide)
  exact ⟨h.1, h.2.1⟩

lemma nudged_ne_zero : ((0 : ℚ), (0 : ℚ), floatMin) ≠ Vector3D.zero := by
  simp only [Vector3D.zero, Prod.mk.injEq, floatMin]
  norm_num

lemma nudged_within_epsilon : withinEpsilonOfZero ((0 : ℚ), (0 : ℚ), floatMin) := by
  unfold withinEpsilonOfZero floatMin floatEpsilon
  refine ⟨by norm_num, by norm_num, ?_⟩
  rw [abs_of_nonneg (by norm_num)]
  norm_num

/-- C7: a successful positional fetch whose player or camera position is
exactly (0,0,0) stores a value in the snapshot that is numerically
distinct from the origin but within one float epsilon of it (the z axis
is nudged by float-min). -/
theorem fetchPositionalData_zero_sentinel_nudge (bT : Bool) (s : ArbiterState)
    (id : Nat) (plugin : PluginState)
    (hact : s.activePositionalDataPlugin = some id)
    (hfind : findPlugin s.registry id = some plugin)
    (hfn : plugin.apiFnc.fetchPositionalData = true)
    (hret : plugin.lib.fetchRet = true) :
    (PluginManager.fetchPositionalData false bT s).2 = true ∧
    (plugin.lib.fetchPlayerPos = Vector3D.zero →
      (PluginManager.fetchPositionalData false bT s).1.positionalData.playerPos
        ≠ Vector3D.zero ∧
      withinEpsilonOfZero
        (PluginManager.fetchPositionalData false bT s).1.positionalData.playerPos) ∧
    (plugin.lib.fetchCameraPos = Vector3D.zero →
      (PluginManager.fetchPositionalData false bT s).1.positionalData.cameraPos
        ≠ Vector3D.zero ∧
      withinEpsilonOfZero
        (PluginManager.fetchPositionalData false bT s).1.positionalData.cameraPos) := by
  have hfr : Plugin.fetchPositionalData plugin
      = ⟨plugin.lib.fetchPlayerPos, plugin.lib.fetchPlayerDir, plugin.lib.fetchPlayerAxis,
         plugin.lib.fetchCameraPos, plugin.lib.fetchCameraDir, plugin.lib.fetchCameraAxis,
         plugin.lib.fetchContext, plugin.lib.fetchIdentity, plugin.lib.fetchRet⟩ := by
    simp [Plugin.fetchPositionalData, hfn]
  by_cases hcx : plugin.lib.fetchContext = "" <;>
    by_cases hzp : plugin.lib.fetchPlayerPos = Vector3D.zero <;>
      by_cases hzc : plugin.lib.fetchCameraPos = Vector3D.zero <;>
        simp [PluginManager.fetchPositionalData, hact, hfind, hfr, hret, hcx, hzp, hzc,
          nudged_ne_zero, nudged_within_epsilon]

/-- Witness for C7: a fetch from an active plugin that reports success
with both positions at the exact origin yields nudged snapshot
positions. -/
theorem fetchPositionalData_zero_sentinel_nudge_witness :
    (PluginManager.fetchPositionalData false true
        ⟨[activePosPlugin 9], some 9, emptyPositionalData⟩).1.positionalData.playerPos
      ≠ Vector3D.zero ∧
    withinEpsilonOfZero
      (PluginManager.fetchPositionalData false true
        ⟨[activePosPlugin 9], some 9, emptyPositionalData⟩).1.positionalData.playerPos := by
  have h := fetchPositionalData_zero_sentinel_nudge true
    ⟨[activePosPlugin 9], some 9, emptyPositionalData⟩ 9 (activePosPlugin 9)
    rfl (by decide) (by decide) (by decide)
  exact h.2.1 (by decide)

end MumbleHost
